import Mathlib

/-!
# Trust-Weighted Reputation & Sybil-Risk Engine — verification development

A shallow embedding, over `ℚ`, of the reputation core of the `dotrep`
repository (`src/services/reputation/`):

* `advanced_graph_analyzer.py` — multi-dimensional score primitives, score
  fusion, trust-weighted PageRank, incremental graph updates;
* `reputation_engine.py` — the `ReputationEngine` layer (trust-weight blend,
  step-function sybil penalty, its own confidence);
* `enhanced_sybil_detector.py` — risk-factor combination;
* `flagging_analysis_engine.py` — coordination score and flagging risk;
* `guardian_integrator.py` — the Guardian confidence → quality mapping;
* `optimized_graph_processor.py` — the second incremental-update path.

Python floats are modelled as exact rationals.  Where the source calls into
an external library (networkx centralities, Louvain, `np.log`) the embedding
takes the externally computed value as an explicit argument, keeping all the
repository's own control flow and arithmetic exact; each such point is noted
at the definition.
-/

namespace DotRep

/-- Python's binary `min` on exact rationals (kernel-executable form). -/
def qmin (a b : ℚ) : ℚ := if a ≤ b then a else b

/-- Python's binary `max` on exact rationals (kernel-executable form). -/
def qmax (a b : ℚ) : ℚ := if a ≤ b then b else a

theorem qmin_eq_min (a b : ℚ) : qmin a b = min a b := (min_def a b).symm

theorem qmax_eq_max (a b : ℚ) : qmax a b = max a b := (max_def a b).symm

/-- `min(1.0, max(0.0, x))` as written in the source (e.g. `combine_scores`). -/
def clamp01 (x : ℚ) : ℚ := qmin 1 (qmax 0 x)

/-- `max(0.0, min(1.0, x))` as written in the source (e.g. the final clamp in
`compute_comprehensive_reputation` and `compute_user_reputation`). -/
def pyClamp (x : ℚ) : ℚ := qmax 0 (qmin 1 x)

theorem clamp01_as_minmax (x : ℚ) : clamp01 x = min 1 (max 0 x) := by
  unfold clamp01; rw [qmin_eq_min, qmax_eq_max]

theorem pyClamp_as_maxmin (x : ℚ) : pyClamp x = max 0 (min 1 x) := by
  unfold pyClamp; rw [qmin_eq_min, qmax_eq_max]

theorem clamp01_eq_pyClamp (x : ℚ) : clamp01 x = pyClamp x := by
  rw [clamp01_as_minmax, pyClamp_as_maxmin]
  rcases le_total x 0 with h | h
  · rw [max_eq_left h, min_eq_right (show (0:ℚ) ≤ 1 by norm_num),
      min_eq_right (h.trans (show (0:ℚ) ≤ 1 by norm_num)), max_eq_left h]
  · rw [max_eq_right h]
    rcases le_total x 1 with h1 | h1
    · rw [min_eq_right h1, max_eq_right h]
    · rw [min_eq_left h1, max_eq_right (show (0:ℚ) ≤ 1 by norm_num)]

theorem clamp01_nonneg (x : ℚ) : 0 ≤ clamp01 x := by
  rw [clamp01_as_minmax]; exact le_min (by norm_num) (le_max_left 0 x)

theorem clamp01_le_one (x : ℚ) : clamp01 x ≤ 1 := by
  rw [clamp01_as_minmax]; exact min_le_left 1 _

theorem pyClamp_nonneg (x : ℚ) : 0 ≤ pyClamp x := by
  rw [pyClamp_as_maxmin]; exact le_max_left 0 _

theorem pyClamp_le_one (x : ℚ) : pyClamp x ≤ 1 := by
  rw [pyClamp_as_maxmin]; exact max_le (by norm_num) (min_le_left 1 x)

theorem pyClamp_mono {x y : ℚ} (h : x ≤ y) : pyClamp x ≤ pyClamp y := by
  rw [pyClamp_as_maxmin, pyClamp_as_maxmin]
  exact max_le_max le_rfl (min_le_min le_rfl h)

/-- The `content_quality` sub-dictionary of an analysis: `combined`,
`verified_content_ratio`, and the optional `average_confidence` key (present
only when Guardian returned verified items; read elsewhere with default 0.5). -/
structure ContentScores where
  combined : ℚ
  verified_ratio : ℚ
  avg_confidence : Option ℚ
  deriving DecidableEq, Repr

/-- The per-dimension `combined` values of an analysis' `scores` dictionary,
with the full content-quality sub-dictionary (whose `verified_content_ratio`
is read by both confidence calculators). -/
structure Scores where
  structural : ℚ
  behavioral : ℚ
  content : ContentScores
  economic : ℚ
  temporal : ℚ
  deriving DecidableEq, Repr

/-- `AdvancedGraphAnalyzer.combine_scores`: the weighted fusion
0.25/0.20/0.25/0.20/0.10 of the five `combined` values, clamped with
`min(1.0, max(0.0, ·))`.  (The source reads the dimensions with `.get`
defaults 0.0/0.5; in this embedding every dimension is present.) -/
def combine_scores (s : Scores) : ℚ :=
  clamp01 (s.structural * 0.25 + s.behavioral * 0.20 + s.content.combined * 0.25 +
    s.economic * 0.20 + s.temporal * 0.10)

/-- Steps 7 of `compute_comprehensive_reputation` (and the identical code in
`_compute_single_reputation_with_cache`): `overall_reputation =
combine_scores(scores)`, then `*= (1 - overall_risk * 0.5)`, then
`max(0.0, min(1.0, ·))`. -/
def overall_reputation (s : Scores) (risk : ℚ) : ℚ :=
  pyClamp (combine_scores s * (1 - risk * 0.5))

/-- The claim's (spec §4.4) formula for the final reputation, written from the
spec's words: clamp01 of the weighted fusion, multiplied by
`(1 - overall_risk*0.5)`, clamped to [0,1] again. -/
def spec_final_reputation (s : Scores) (risk : ℚ) : ℚ :=
  clamp01 (clamp01 (s.structural * 0.25 + s.behavioral * 0.20 +
    s.content.combined * 0.25 + s.economic * 0.20 + s.temporal * 0.10) *
    (1 - risk * 0.5))

/-- Optional per-user stake data (`stake_data` dict): `stake_amount` and
`transaction_diversity`, both defaulting to 0.0 in the source's `.get` reads. -/
structure StakeData where
  stake_amount : ℚ
  transaction_diversity : ℚ
  deriving DecidableEq, Repr

/-- The trust-weight triple returned by
`ReputationEngine.calculate_trust_weights`. -/
structure TrustWeights where
  graph : ℚ
  economic : ℚ
  content : ℚ
  deriving DecidableEq, Repr

/-- `ReputationEngine.calculate_trust_weights`: start from
{graph 0.4, economic 0.3, content 0.3}; shift 0.1 graph→economic when stake
data with positive `stake_amount` is supplied; shift 0.1 graph→content when
`verified_content_ratio > 0.7`; then divide by the total (the total is
positive in every branch). -/
def calculate_trust_weights (s : Scores) (stake : Option StakeData) : TrustWeights :=
  let g : ℚ := 0.4
  let e : ℚ := 0.3
  let c : ℚ := 0.3
  let stakePos : Bool := match stake with
    | some sd => decide (0 < sd.stake_amount)
    | none => false
  let g := if stakePos then g - 0.1 else g
  let e := if stakePos then e + 0.1 else e
  let g := if s.content.verified_ratio > 0.7 then g - 0.1 else g
  let c := if s.content.verified_ratio > 0.7 then c + 0.1 else c
  let total := g + e + c
  if 0 < total then ⟨g / total, e / total, c / total⟩ else ⟨g, e, c⟩

/-- `ReputationEngine.calculate_content_impact`:
`verified_ratio * 0.6 + average_confidence * 0.4`, clamped; the
`average_confidence` key is read with default 0.5.  (The `if not
content_quality` branch is unreachable here: the analyzer always returns a
non-empty content-quality dictionary.) -/
def calculate_content_impact (c : ContentScores) : ℚ :=
  pyClamp (c.verified_ratio * 0.6 + c.avg_confidence.getD 0.5 * 0.4)

/-- `ReputationEngine.calculate_sybil_penalty`: the step function of the
overall risk (≥0.8 → 0.5, ≥0.6 → 0.3, ≥0.4 → 0.15, ≥0.2 → 0.05, else 0). -/
def calculate_sybil_penalty (risk : ℚ) : ℚ :=
  if risk ≥ 0.8 then 0.5
  else if risk ≥ 0.6 then 0.3
  else if risk ≥ 0.4 then 0.15
  else if risk ≥ 0.2 then 0.05
  else 0

/-- The analyzer output consumed by `ReputationEngine.compute_user_reputation`:
the per-dimension scores, the detector's `overall_risk`, and the analyzer's
`overall_reputation` (already risk-penalized by the analyzer). -/
structure Analysis where
  scores : Scores
  overall_risk : ℚ
  overall_rep : ℚ
  deriving DecidableEq, Repr

/-- The `final_reputation` computed by
`ReputationEngine.compute_user_reputation` (lines 42–68): blend the analyzer's
`overall_reputation` with the economic combined score and the content impact
using the normalized trust weights, multiply by `(1 - sybil_penalty)`, and
clamp with `max(0.0, min(1.0, ·))`. -/
def compute_user_reputation_final (a : Analysis) (stake : Option StakeData) : ℚ :=
  let w := calculate_trust_weights a.scores stake
  let ci := calculate_content_impact a.scores.content
  let fr := a.overall_rep * w.graph + a.scores.economic * w.economic + ci * w.content
  pyClamp (fr * (1 - calculate_sybil_penalty a.overall_risk))

/-- A reachable score bundle: an actor with no structural/behavioral/economic
signal, the neutral content default {combined 0.5, ratio 0.5}, and temporal
combined 0.5 (about 2.5 years of account age, no edges), with no sybil
detector wired (risk 0). -/
def cexScores : Scores := ⟨0, 0, ⟨0.5, 0.5, none⟩, 0, 0.5⟩

def cexAnalysis : Analysis := ⟨cexScores, 0, overall_reputation cexScores 0⟩

/-- The data-availability count of `AdvancedGraphAnalyzer.calculate_confidence`:
structural/behavioral/economic/temporal count through `combined > 0`, while the
content dimension counts through `verified_content_ratio > 0`. -/
def availCount (s : Scores) : ℕ :=
  (if 0 < s.structural then 1 else 0) + (if 0 < s.behavioral then 1 else 0) +
  (if 0 < s.content.verified_ratio then 1 else 0) + (if 0 < s.economic then 1 else 0) +
  (if 0 < s.temporal then 1 else 0)

/-- The strong-signal count: how many of the structural, behavioral,
content-quality and economic `combined` scores exceed 0.7. -/
def strongCount (s : Scores) : ℕ :=
  (if 0.7 < s.structural then 1 else 0) + (if 0.7 < s.behavioral then 1 else 0) +
  (if 0.7 < s.content.combined then 1 else 0) + (if 0.7 < s.economic then 1 else 0)

/-- `AdvancedGraphAnalyzer.calculate_confidence`: base confidence is the
availability count over 5; boosted by 1.2 (capped at 1) when at least 3 strong
signals are present; final `max(0.0, min(1.0, ·))`. -/
def calculate_confidence (s : Scores) : ℚ :=
  pyClamp (if 3 ≤ strongCount s then qmin 1 ((availCount s : ℚ) / 5 * 1.2)
    else (availCount s : ℚ) / 5)

/-- The claim's confidence formula, written from the spec's words:
`base_confidence` is the number of dimensions with a nonzero score (the content
dimension judged by its combined score) divided by 5, times 1.2 exactly when at
least 3 of {structural, behavioral, content, economic} exceed 0.7, clamped. -/
def spec_confidence (s : Scores) : ℚ :=
  clamp01 ((((if s.structural ≠ 0 then 1 else 0) + (if s.behavioral ≠ 0 then 1 else 0) +
    (if s.content.combined ≠ 0 then 1 else 0) + (if s.economic ≠ 0 then 1 else 0) +
    (if s.temporal ≠ 0 then 1 else 0) : ℕ) : ℚ) / 5 *
    (if 3 ≤ strongCount s then 1.2 else 1))

/-- The amended confidence formula: like `spec_confidence`, but a dimension
counts as available when its combined score is positive — except the content
dimension, which counts when its `verified_content_ratio` is positive. -/
def amended_confidence (s : Scores) : ℚ :=
  clamp01 ((availCount s : ℚ) / 5 * (if 3 ≤ strongCount s then 1.2 else 1))

theorem pyClamp_min_one (x : ℚ) : pyClamp (qmin 1 x) = pyClamp x := by
  rw [pyClamp_as_maxmin, pyClamp_as_maxmin, qmin_eq_min, ← min_assoc, min_self]

/-- Claim C1 (counterexample): an actor whose only nonzero dimensions are the
neutral content default (0.5/0.5) and temporal 0.5, with zero Sybil risk.  The
spec formula gives clamp01(0.5·0.25 + 0.5·0.10) = 0.175, but
`ReputationEngine.compute_user_reputation` reports `final_reputation` 0.22: it
re-blends the fused value with the economic score and the content impact using
the trust weights (0.4/0.3/0.3).  The second conjunct checks the analysis
record is internally consistent (its `overall_reputation` does satisfy the
fusion contract). -/
theorem engine_final_reputation_cex :
    compute_user_reputation_final cexAnalysis none ≠ spec_final_reputation cexScores 0 ∧
    cexAnalysis.overall_rep = spec_final_reputation cexScores 0 := by
  norm_num [compute_user_reputation_final, cexAnalysis, cexScores, spec_final_reputation,
    calculate_trust_weights, calculate_content_impact, calculate_sybil_penalty,
    overall_reputation, combine_scores, clamp01, pyClamp, qmin, qmax]

/-- Claim C1 (amended): the analyzer's `overall_reputation` — computed by
`combine_scores` followed by the Sybil-risk penalty in
`compute_comprehensive_reputation` — equals the spec's fusion contract:
clamp01 of the 0.25/0.20/0.25/0.20/0.10 weighted fusion, multiplied by
`(1 - overall_risk·0.5)`, clamped to [0,1] again.  (The `ReputationEngine`
layer's differently-computed `final_reputation` is the counterexample.) -/
theorem fusion_final_reputation_contract (s : Scores) (risk : ℚ) :
    overall_reputation s risk = spec_final_reputation s risk := by
  unfold overall_reputation spec_final_reputation combine_scores
  simp only [clamp01_eq_pyClamp]

/-- The concrete scores refuting claim C3: all four boost dimensions strong
(0.8), but content was analyzed with no verified items, so its dictionary is
{combined 0.8, verified_content_ratio 0.0}. -/
def c3Scores : Scores := ⟨0.8, 0.8, ⟨0.8, 0, none⟩, 0.8, 0⟩

/-- Claim C3 (counterexample): with `c3Scores` the code counts only 3 available
dimensions (content is judged by `verified_content_ratio > 0`, which is 0 here)
giving confidence min(1, 3/5·1.2) = 0.72, while the claim's "number of nonzero
score dimensions" counts 4 (content's combined score is 0.8 ≠ 0), giving
4/5·1.2 = 0.96. -/
theorem confidence_nonzero_dims_cex :
    calculate_confidence c3Scores ≠ spec_confidence c3Scores := by
  norm_num [calculate_confidence, spec_confidence, c3Scores, availCount, strongCount,
    clamp01, pyClamp, qmin, qmax]

/-- Claim C3 (amended): the confidence equals clamp01 of
`base_confidence · (1.2 if ≥3 strong signals else 1.0)`, where
`base_confidence` counts a dimension as available when its combined score is
positive — except the content dimension, which counts when its
`verified_content_ratio` is positive. -/
theorem analyzer_confidence_characterization (s : Scores) :
    calculate_confidence s = amended_confidence s := by
  unfold calculate_confidence amended_confidence
  rw [clamp01_eq_pyClamp]
  by_cases h : 3 ≤ strongCount s
  · simp only [if_pos h]
    rw [pyClamp_min_one]
  · simp only [if_neg h, mul_one]

theorem calculate_trust_weights_nonneg (s : Scores) (stake : Option StakeData) :
    0 ≤ (calculate_trust_weights s stake).graph ∧
    0 ≤ (calculate_trust_weights s stake).economic ∧
    0 ≤ (calculate_trust_weights s stake).content := by
  rcases stake with _ | sd <;>
    · simp only [calculate_trust_weights]
      split_ifs <;> refine ⟨?_, ?_, ?_⟩ <;> norm_num

theorem calculate_sybil_penalty_nonneg (r : ℚ) : 0 ≤ calculate_sybil_penalty r := by
  unfold calculate_sybil_penalty
  split_ifs <;> norm_num

theorem calculate_sybil_penalty_le_half (r : ℚ) : calculate_sybil_penalty r ≤ 0.5 := by
  unfold calculate_sybil_penalty
  split_ifs <;> norm_num

theorem calculate_sybil_penalty_mono {r1 r2 : ℚ} (h : r1 ≤ r2) :
    calculate_sybil_penalty r1 ≤ calculate_sybil_penalty r2 := by
  unfold calculate_sybil_penalty
  split_ifs <;> linarith

/-- Claim C4: final reputation is monotonically non-increasing in the overall
Sybil risk, all else equal — both for the analyzer's `overall_reputation`
(factor `1 - risk·0.5`) and for the `ReputationEngine`'s `final_reputation`
(step-function `calculate_sybil_penalty`), where the engine consumes the
analyzer output whose base reputation is itself risk-penalized. -/
theorem final_reputation_antitone_in_risk (s : Scores) (stake : Option StakeData)
    (r1 r2 : ℚ) (h12 : r1 ≤ r2) (_h2 : r2 ≤ 1) (hec : 0 ≤ s.economic) :
    overall_reputation s r2 ≤ overall_reputation s r1 ∧
    compute_user_reputation_final ⟨s, r2, overall_reputation s r2⟩ stake ≤
      compute_user_reputation_final ⟨s, r1, overall_reputation s r1⟩ stake := by
  have hbase : overall_reputation s r2 ≤ overall_reputation s r1 := by
    unfold overall_reputation
    exact pyClamp_mono (mul_le_mul_of_nonneg_left (by linarith) (clamp01_nonneg _))
  refine ⟨hbase, ?_⟩
  unfold compute_user_reputation_final
  obtain ⟨hg, he, hc⟩ := calculate_trust_weights_nonneg s stake
  have hci : 0 ≤ calculate_content_impact s.content := pyClamp_nonneg _
  have hb2 : 0 ≤ overall_reputation s r2 := pyClamp_nonneg _
  have hb1 : 0 ≤ overall_reputation s r1 := pyClamp_nonneg _
  apply pyClamp_mono
  have hfr : overall_reputation s r2 * (calculate_trust_weights s stake).graph +
      s.economic * (calculate_trust_weights s stake).economic +
      calculate_content_impact s.content * (calculate_trust_weights s stake).content ≤
      overall_reputation s r1 * (calculate_trust_weights s stake).graph +
      s.economic * (calculate_trust_weights s stake).economic +
      calculate_content_impact s.content * (calculate_trust_weights s stake).content := by
    have := mul_le_mul_of_nonneg_right hbase hg
    linarith
  have hfr1 : 0 ≤ overall_reputation s r1 * (calculate_trust_weights s stake).graph +
      s.economic * (calculate_trust_weights s stake).economic +
      calculate_content_impact s.content * (calculate_trust_weights s stake).content :=
    add_nonneg (add_nonneg (mul_nonneg hb1 hg) (mul_nonneg hec he)) (mul_nonneg hci hc)
  have hpen := calculate_sybil_penalty_mono h12
  have hp2 := calculate_sybil_penalty_le_half r2
  exact mul_le_mul hfr (by linarith) (by linarith) hfr1

/-- Witness for claim C4: instantiated at `cexScores` with risks 0 ≤ 1. -/
theorem final_reputation_antitone_in_risk_witness :
    ((0:ℚ) ≤ 1 ∧ (1:ℚ) ≤ 1 ∧ (0:ℚ) ≤ cexScores.economic) ∧
    (overall_reputation cexScores 1 ≤ overall_reputation cexScores 0 ∧
      compute_user_reputation_final ⟨cexScores, 1, overall_reputation cexScores 1⟩ none ≤
        compute_user_reputation_final ⟨cexScores, 0, overall_reputation cexScores 0⟩ none) :=
  ⟨⟨by norm_num, by norm_num, by norm_num [cexScores]⟩,
    final_reputation_antitone_in_risk cexScores none 0 1 (by norm_num) (by norm_num)
      (by norm_num [cexScores])⟩

/-! ## The interaction graph

A directed graph as networkx's `DiGraph` presents it to this code: a node
list, at most one weighted edge per ordered pair (an assumption discharged or
preserved where it matters), and per-node attribute data (`stake`,
`account_age_days`, both read with `.get` default 0).  Account age is modelled
as a natural number of days. -/

structure NodeData where
  stake : ℚ
  account_age_days : ℕ
  deriving DecidableEq, Repr

structure Graph where
  nodes : List String
  edges : List (String × String × ℚ)
  nodeData : List (String × NodeData)
  deriving DecidableEq, Repr

/-- The weight of the edge from `u` to `v` in an edge list, if present. -/
def findEdge : List (String × String × ℚ) → String → String → Option ℚ
  | [], _, _ => none
  | e :: t, u, v => if e.1 == u && e.2.1 == v then some e.2.2 else findEdge t u v

/-- First edge from `u` to `v`, if any (its weight). -/
def lookupEdge (g : Graph) (u v : String) : Option ℚ := findEdge g.edges u v

/-- `graph.has_edge(u, v)`. -/
def hasEdge (g : Graph) (u v : String) : Bool := (lookupEdge g u v).isSome

/-- `graph.get_edge_data(u, v, {}).get('weight', 1.0)`. -/
def edgeWeightD (g : Graph) (u v : String) : ℚ := (lookupEdge g u v).getD 1

/-- Dictionary lookup in a `node → float` weight map. -/
def lookupQ (m : List (String × ℚ)) (u : String) : Option ℚ :=
  (m.find? (fun p => p.1 == u)).map (fun p => p.2)

/-- `AdvancedGraphAnalyzer._calculate_connection_strength`: 1.5 when the
reciprocal edge exists, else `min(1.0, edge_weight)` with weight default 1.0. -/
def calc_connection_strength (g : Graph) (source target : String) : ℚ :=
  if hasEdge g target source then 1.5 else qmin 1 (edgeWeightD g source target)

/-- `AdvancedGraphAnalyzer._calculate_trust_weight`: start from 1.0, multiply
by `(1 + min(1, stake/10000)·0.5)` when a stake map is supplied and contains
the source (Python's truthiness on an empty dict coincides with the failing
lookup), by `(1 + reputation·0.3)` when a reputation map is supplied and
contains the source, then by the connection strength, capped by
`min(·, 2.0)`. -/
def calc_trust_weight (g : Graph) (source target : String)
    (stakeW repW : Option (List (String × ℚ))) : ℚ :=
  let w1 : ℚ := 1
  let w2 := match stakeW.bind (fun sw => lookupQ sw source) with
    | some s => w1 * (1 + qmin 1 (s / 10000) * 0.5)
    | none => w1
  let w3 := match repW.bind (fun rw => lookupQ rw source) with
    | some r => w2 * (1 + r * 0.3)
    | none => w2
  qmin (w3 * calc_connection_strength g source target) 2

/-- The spec's `stake_factor(u) = 1 + 0.5·min(1, stake(u)/10000)` when stake
weights are supplied (an actor absent from the map has stake 0) and 1.0
otherwise. -/
def spec_stake_factor (stakeW : Option (List (String × ℚ))) (u : String) : ℚ :=
  match stakeW with
  | some sw => 1 + 0.5 * qmin 1 ((lookupQ sw u).getD 0 / 10000)
  | none => 1

/-- The spec's `reputation_factor(u) = 1 + 0.3·reputation(u)` when reputation
weights are supplied (absent actor → reputation 0) and 1.0 otherwise. -/
def spec_reputation_factor (repW : Option (List (String × ℚ))) (u : String) : ℚ :=
  match repW with
  | some rw => 1 + 0.3 * (lookupQ rw u).getD 0
  | none => 1

theorem qmin_comm (a b : ℚ) : qmin a b = qmin b a := by
  rw [qmin_eq_min, qmin_eq_min, min_comm]

/-- Claim C5: the trust weight of every in-edge (u,n) equals
`min(2.0, stake_factor(u) · reputation_factor(u) · connection_strength(u,n))`
with the factors as the spec states them. -/
theorem trust_weight_factorization (g : Graph) (u n : String)
    (stakeW repW : Option (List (String × ℚ))) :
    calc_trust_weight g u n stakeW repW =
      qmin 2 (spec_stake_factor stakeW u * spec_reputation_factor repW u *
        calc_connection_strength g u n) := by
  have h0 : (1:ℚ) + 0.5 * qmin 1 ((0:ℚ)/10000) = 1 := by norm_num [qmin]
  unfold calc_trust_weight spec_stake_factor spec_reputation_factor
  rw [qmin_comm]
  congr 1
  rcases stakeW with _ | sw
  · rcases repW with _ | rw
    · simp only [Option.none_bind]; ring
    · rcases hr : lookupQ rw u with _ | r <;>
        simp only [Option.none_bind, Option.some_bind, hr, Option.getD_none,
          Option.getD_some] <;> ring
  · rcases repW with _ | rw
    · rcases hs : lookupQ sw u with _ | s <;>
        simp only [Option.none_bind, Option.some_bind, hs, Option.getD_none,
          Option.getD_some] <;> try rw [h0]
      all_goals ring
    · rcases hs : lookupQ sw u with _ | s <;> rcases hr : lookupQ rw u with _ | r <;>
        simp only [Option.none_bind, Option.some_bind, hs, hr, Option.getD_none,
          Option.getD_some] <;> try rw [h0]
      all_goals ring

/-! ## Guardian confidence → quality mapping (claim C9) -/

/-- `GuardianIntegrator.map_guardian_confidence_to_quality`: exact/manipulated
→ `1 - confidence`; near → `1 - confidence·0.5`; otherwise the raw confidence,
defaulting to 0.8 when it is not positive. -/
def guardian_map_quality (confidence : ℚ) (match_type : String) : ℚ :=
  if match_type == "exact" || match_type == "manipulated" then 1 - confidence
  else if match_type == "near" then 1 - confidence * 0.5
  else if 0 < confidence then confidence else 0.8

/-- `AdvancedGraphAnalyzer.map_guardian_confidence_to_quality` — the analyzer's
own copy used by `content_quality_analysis`: its final branch returns the raw
confidence with no 0.8 default. -/
def analyzer_map_quality (confidence : ℚ) (match_type : String) : ℚ :=
  if match_type == "exact" || match_type == "manipulated" then 1 - confidence
  else if match_type == "near" then 1 - confidence * 0.5
  else confidence

/-- The claim's mapping, written from the spec's words: exact/manipulated →
`1 - confidence`; near → `1 - confidence·0.5`; any other match type → the
confidence, except that a 0 (or absent, i.e. default-0) confidence with no
match defaults to 0.8. -/
def spec_quality (confidence : ℚ) (match_type : String) : ℚ :=
  if match_type == "exact" || match_type == "manipulated" then 1 - confidence
  else if match_type == "near" then 1 - confidence * 0.5
  else if confidence = 0 then 0.8 else confidence

/-- Claim C9 (counterexample): at confidence 0 with no match, the analyzer's
copy of the mapping returns 0, not the claimed default 0.8. -/
theorem analyzer_quality_default_cex :
    analyzer_map_quality 0 "none" ≠ spec_quality 0 "none" := by
  simp [analyzer_map_quality, spec_quality]
  norm_num

/-- Claim C9 (amended): the `GuardianIntegrator`'s mapping satisfies the
claimed specification for every nonnegative confidence; the analyzer's
internal copy (the counterexample) omits the 0.8 default. -/
theorem guardian_quality_mapping (confidence : ℚ) (match_type : String)
    (h : 0 ≤ confidence) :
    guardian_map_quality confidence match_type = spec_quality confidence match_type := by
  unfold guardian_map_quality spec_quality
  split_ifs <;>
    first
      | rfl
      | linarith
      | (rename_i hpos hzero; exact absurd (le_antisymm (not_lt.mp hpos) h) hzero)

/-- Witness for claim C9: confidence 0.5, match type "none". -/
theorem guardian_quality_mapping_witness :
    (0:ℚ) ≤ 0.5 ∧ guardian_map_quality 0.5 "none" = spec_quality 0.5 "none" :=
  ⟨by norm_num, guardian_quality_mapping 0.5 "none" (by norm_num)⟩

/-! ## Graph accessors

networkx's `DiGraph` keeps one adjacency entry per ordered pair, so successor
and predecessor sets are duplicate-free; `degree` of a node is the number of
incident in- plus out-edges. -/

/-- `graph.successors(u)` / `graph.neighbors(u)` (a DiGraph's neighbors are
its successors). -/
def successors (g : Graph) (u : String) : List String :=
  ((g.edges.filter (fun e => e.1 == u)).map (fun e => e.2.1)).eraseDups

/-- `graph.predecessors(u)`. -/
def predecessors (g : Graph) (u : String) : List String :=
  ((g.edges.filter (fun e => e.2.1 == u)).map (fun e => e.1)).eraseDups

def outDegree (g : Graph) (u : String) : ℕ := (successors g u).length

def inDegree (g : Graph) (u : String) : ℕ := (predecessors g u).length

/-- `graph.degree(u)` on a DiGraph: in-degree plus out-degree. -/
def degree (g : Graph) (u : String) : ℕ := inDegree g u + outDegree g u

/-- `u in graph`. -/
def memNode (g : Graph) (u : String) : Bool := g.nodes.contains u

def nodeDataOf (g : Graph) (u : String) : Option NodeData :=
  (g.nodeData.find? (fun p => p.1 == u)).map (fun p => p.2)

/-- `graph.nodes.get(u, {}).get('stake', 0.0)`. -/
def nodeStake (g : Graph) (u : String) : ℚ :=
  match nodeDataOf g u with
  | some d => d.stake
  | none => 0

/-- `graph.nodes.get(u, {}).get('account_age_days', 0)`. -/
def nodeAge (g : Graph) (u : String) : ℕ :=
  match nodeDataOf g u with
  | some d => d.account_age_days
  | none => 0

/-! ## Structural and behavioral score normalization (claims C2, C6) -/

/-- The raw structural metrics dictionary handed to
`normalize_structural_scores`: pagerank, the three centralities and the
community embeddedness, plus the optional `eigenvector` key. -/
structure StructuralRaw where
  pagerank : ℚ
  betweenness : ℚ
  closeness : ℚ
  degree : ℚ
  community : ℚ
  eigenvector : Option ℚ
  deriving DecidableEq, Repr

structure StructuralScores where
  pagerank : ℚ
  betweenness : ℚ
  closeness : ℚ
  degree : ℚ
  eigenvector : ℚ
  community : ℚ
  combined : ℚ
  deriving DecidableEq, Repr

/-- `AdvancedGraphAnalyzer.normalize_structural_scores`: clamp every
sub-signal to [0,1] (pagerank after scaling by 100) and combine with weights
0.25/0.2/0.15/0.15/0.15/0.1.  When the `eigenvector` key is absent, the source
computes `nx.eigenvector_centrality_numpy` for graphs under 10000 nodes (0.0
when skipped or on error); `eigComputed` stands for that externally computed
value (0 in the skipped/failed cases), and it is clamped like every other
signal. -/
def normalize_structural (m : StructuralRaw) (eigComputed : ℚ) : StructuralScores where
  pagerank := clamp01 (m.pagerank * 100)
  betweenness := clamp01 m.betweenness
  closeness := clamp01 m.closeness
  degree := clamp01 m.degree
  eigenvector :=
    match m.eigenvector with
    | some v => clamp01 v
    | none => clamp01 eigComputed
  community := clamp01 m.community
  combined :=
    clamp01 (m.pagerank * 100) * 0.25 + clamp01 m.betweenness * 0.2 +
    clamp01 m.closeness * 0.15 + clamp01 m.degree * 0.15 +
    (match m.eigenvector with
      | some v => clamp01 v
      | none => clamp01 eigComputed) * 0.15 + clamp01 m.community * 0.1

/-- The raw behavioral metrics dictionary produced by `behavioral_analysis`. -/
structure BehavioralRaw where
  engagement_consistency : ℚ
  reciprocity_rate : ℚ
  content_diversity : ℚ
  connection_quality : ℚ
  response_patterns : ℚ
  activity_longevity : ℚ
  posting_regularity : ℚ
  deriving DecidableEq, Repr

structure BehavioralScores where
  engagement_consistency : ℚ
  reciprocity_rate : ℚ
  content_diversity : ℚ
  connection_quality : ℚ
  response_patterns : ℚ
  activity_longevity : ℚ
  posting_regularity : ℚ
  combined : ℚ
  deriving DecidableEq, Repr

/-- `AdvancedGraphAnalyzer.normalize_behavioral_scores`: clamp every metric to
[0,1] and combine with weights 0.20/0.20/0.15/0.15/0.15/0.10/0.05. -/
def normalize_behavioral (m : BehavioralRaw) : BehavioralScores where
  engagement_consistency := clamp01 m.engagement_consistency
  reciprocity_rate := clamp01 m.reciprocity_rate
  content_diversity := clamp01 m.content_diversity
  connection_quality := clamp01 m.connection_quality
  response_patterns := clamp01 m.response_patterns
  activity_longevity := clamp01 m.activity_longevity
  posting_regularity := clamp01 m.posting_regularity
  combined :=
    clamp01 m.engagement_consistency * 0.20 + clamp01 m.reciprocity_rate * 0.20 +
    clamp01 m.content_diversity * 0.15 + clamp01 m.connection_quality * 0.15 +
    clamp01 m.response_patterns * 0.15 + clamp01 m.activity_longevity * 0.10 +
    clamp01 m.posting_regularity * 0.05

/-! ## Economic and temporal analysis (claims C2, C6) -/

structure EconomicScores where
  stake_score : ℚ
  transaction_activity : ℚ
  account_age_score : ℚ
  transaction_diversity : ℚ
  combined : ℚ
  deriving DecidableEq, Repr

/-- The stake amount used by `economic_analysis`: from the stake data when
supplied, else from the node's `stake` attribute (default 0). -/
def econ_stake_amount (g : Graph) (u : String) (stake : Option StakeData) : ℚ :=
  match stake with
  | some sd => sd.stake_amount
  | none => nodeStake g u

/-- The transaction diversity used by `economic_analysis`: from the stake data
when supplied, else 0. -/
def econ_diversity (stake : Option StakeData) : ℚ :=
  match stake with
  | some sd => sd.transaction_diversity
  | none => 0

/-- The stake score of `economic_analysis`:
`min(1, ln(1+stake/1000)/ln(11))` for positive stake, else 0.  The irrational
log ratio is taken as the argument `lnRatio` (the source computes it with
`np.log`); the surrounding control flow is exact. -/
def econ_stake_score (g : Graph) (u : String) (stake : Option StakeData)
    (lnRatio : ℚ) : ℚ :=
  if 0 < econ_stake_amount g u stake then qmin 1 lnRatio else 0

/-- The account-age score of `economic_analysis`: `min(1, age_days/365)`. -/
def econ_age_score (g : Graph) (u : String) : ℚ := qmin 1 ((nodeAge g u : ℚ) / 365)

/-- The transaction activity of `economic_analysis`: `min(1, diversity)` when
the diversity is positive, else `min(1, graph.degree(u)/100)` — and
`graph.degree` fails in networkx for a node absent from the graph (it returns
a degree view, and the division raises `TypeError`); `none` models that raised
exception. -/
def economic_activity (g : Graph) (u : String) (transaction_diversity : ℚ) : Option ℚ :=
  if 0 < transaction_diversity then some (qmin 1 transaction_diversity)
  else if memNode g u then some (qmin 1 ((degree g u : ℚ) / 100)) else none

/-- `AdvancedGraphAnalyzer.economic_analysis`: the four sub-signals and their
0.4/0.3/0.2/0.1 combination — the raw `transaction_diversity` enters the
combination without being clamped. -/
def economic_analysis (g : Graph) (u : String) (stake : Option StakeData)
    (lnRatio : ℚ) : Option EconomicScores :=
  (economic_activity g u (econ_diversity stake)).map (fun ta =>
    ⟨econ_stake_score g u stake lnRatio, ta, econ_age_score g u, econ_diversity stake,
      econ_stake_score g u stake lnRatio * 0.4 + ta * 0.3 + econ_age_score g u * 0.2 +
        econ_diversity stake * 0.1⟩)

structure TemporalScores where
  account_age_score : ℚ
  activity_consistency : ℚ
  long_term_engagement : ℚ
  combined : ℚ
  deriving DecidableEq, Repr

/-- The record computed by `AdvancedGraphAnalyzer.temporal_analysis` for a
node present in the graph: account age over 2 years, degree/50 consistency,
(in+out)/100 engagement, weights 0.4/0.3/0.3. -/
def temporal_core (g : Graph) (u : String) : TemporalScores where
  account_age_score := qmin 1 ((nodeAge g u : ℚ) / 730)
  activity_consistency := qmin 1 ((degree g u : ℚ) / 50)
  long_term_engagement := qmin 1 (((inDegree g u : ℚ) + (outDegree g u : ℚ)) / 100)
  combined :=
    qmin 1 ((nodeAge g u : ℚ) / 730) * 0.4 + qmin 1 ((degree g u : ℚ) / 50) * 0.3 +
      qmin 1 (((inDegree g u : ℚ) + (outDegree g u : ℚ)) / 100) * 0.3

/-- `AdvancedGraphAnalyzer.temporal_analysis`.  It reads `graph.degree` /
`in_degree` / `out_degree`, which fail in networkx for an absent node; `none`
models that raised exception. -/
def temporal_analysis (g : Graph) (u : String) : Option TemporalScores :=
  if memNode g u then some (temporal_core g u) else none

/-- The five per-method `risk_score` values consumed by
`EnhancedSybilDetector.combine_risk_factors`. -/
structure RiskScores where
  graph : ℚ
  behavioral : ℚ
  economic : ℚ
  content : ℚ
  temporal : ℚ
  deriving DecidableEq, Repr

/-- `EnhancedSybilDetector.combine_risk_factors`: the 0.35/0.25/0.20/0.10/0.10
weighted sum of the method risk scores, clamped with `min(1.0, max(0.0, ·))`. -/
def combine_risk_factors (r : RiskScores) : ℚ :=
  clamp01 (r.graph * 0.35 + r.behavioral * 0.25 + r.economic * 0.20 +
    r.content * 0.10 + r.temporal * 0.10)

/-- Claim C2 (counterexample): `economic_analysis` of an actor in a one-node
graph, with stake data {stake 0, transaction_diversity 20}: the raw
`transaction_diversity` enters the combination unclamped, and the economic
`combined` score is 2.3 ∉ [0,1]. -/
theorem economic_combined_exceeds_one_cex :
    economic_analysis ⟨["a"], [], []⟩ "a" (some ⟨0, 20⟩) 0 =
      some ⟨0, 1, 0, 20, 2.3⟩ ∧ ¬((2.3:ℚ) ≤ 1) := by
  constructor
  · norm_num [economic_analysis, economic_activity, econ_stake_score, econ_stake_amount,
      econ_diversity, econ_age_score, nodeStake, nodeAge, nodeDataOf, qmin, List.find?]
  · norm_num

theorem qmin_one_nonneg_in01 {x : ℚ} (hx : 0 ≤ x) : 0 ≤ qmin 1 x ∧ qmin 1 x ≤ 1 := by
  rw [qmin_eq_min]
  exact ⟨le_min (by norm_num) hx, min_le_left 1 x⟩

theorem clamp01_in01 (x : ℚ) : 0 ≤ clamp01 x ∧ clamp01 x ≤ 1 :=
  ⟨clamp01_nonneg x, clamp01_le_one x⟩

theorem normalize_structural_bounds (m : StructuralRaw) (e : ℚ) :
    (0 ≤ (normalize_structural m e).pagerank ∧ (normalize_structural m e).pagerank ≤ 1) ∧
    (0 ≤ (normalize_structural m e).betweenness ∧ (normalize_structural m e).betweenness ≤ 1) ∧
    (0 ≤ (normalize_structural m e).closeness ∧ (normalize_structural m e).closeness ≤ 1) ∧
    (0 ≤ (normalize_structural m e).degree ∧ (normalize_structural m e).degree ≤ 1) ∧
    (0 ≤ (normalize_structural m e).eigenvector ∧ (normalize_structural m e).eigenvector ≤ 1) ∧
    (0 ≤ (normalize_structural m e).community ∧ (normalize_structural m e).community ≤ 1) ∧
    (0 ≤ (normalize_structural m e).combined ∧ (normalize_structural m e).combined ≤ 1) := by
  have hp := clamp01_in01 (m.pagerank * 100)
  have hb := clamp01_in01 m.betweenness
  have hc := clamp01_in01 m.closeness
  have hd := clamp01_in01 m.degree
  have hcm := clamp01_in01 m.community
  rcases hm : m.eigenvector with _ | v
  · have he := clamp01_in01 e
    simp only [normalize_structural, hm]
    exact ⟨hp, hb, hc, hd, he, hcm,
      by linarith [hp.1, hb.1, hc.1, hd.1, he.1, hcm.1],
      by linarith [hp.2, hb.2, hc.2, hd.2, he.2, hcm.2]⟩
  · have he := clamp01_in01 v
    simp only [normalize_structural, hm]
    exact ⟨hp, hb, hc, hd, he, hcm,
      by linarith [hp.1, hb.1, hc.1, hd.1, he.1, hcm.1],
      by linarith [hp.2, hb.2, hc.2, hd.2, he.2, hcm.2]⟩

theorem normalize_behavioral_bounds (m : BehavioralRaw) :
    (0 ≤ (normalize_behavioral m).engagement_consistency ∧
      (normalize_behavioral m).engagement_consistency ≤ 1) ∧
    (0 ≤ (normalize_behavioral m).reciprocity_rate ∧
      (normalize_behavioral m).reciprocity_rate ≤ 1) ∧
    (0 ≤ (normalize_behavioral m).content_diversity ∧
      (normalize_behavioral m).content_diversity ≤ 1) ∧
    (0 ≤ (normalize_behavioral m).connection_quality ∧
      (normalize_behavioral m).connection_quality ≤ 1) ∧
    (0 ≤ (normalize_behavioral m).response_patterns ∧
      (normalize_behavioral m).response_patterns ≤ 1) ∧
    (0 ≤ (normalize_behavioral m).activity_longevity ∧
      (normalize_behavioral m).activity_longevity ≤ 1) ∧
    (0 ≤ (normalize_behavioral m).posting_regularity ∧
      (normalize_behavioral m).posting_regularity ≤ 1) ∧
    (0 ≤ (normalize_behavioral m).combined ∧ (normalize_behavioral m).combined ≤ 1) := by
  have h1 := clamp01_in01 m.engagement_consistency
  have h2 := clamp01_in01 m.reciprocity_rate
  have h3 := clamp01_in01 m.content_diversity
  have h4 := clamp01_in01 m.connection_quality
  have h5 := clamp01_in01 m.response_patterns
  have h6 := clamp01_in01 m.activity_longevity
  have h7 := clamp01_in01 m.posting_regularity
  simp only [normalize_behavioral]
  exact ⟨h1, h2, h3, h4, h5, h6, h7,
    by linarith [h1.1, h2.1, h3.1, h4.1, h5.1, h6.1, h7.1],
    by linarith [h1.2, h2.2, h3.2, h4.2, h5.2, h6.2, h7.2]⟩

theorem temporal_core_bounds (g : Graph) (u : String) :
    (0 ≤ (temporal_core g u).account_age_score ∧ (temporal_core g u).account_age_score ≤ 1) ∧
    (0 ≤ (temporal_core g u).activity_consistency ∧
      (temporal_core g u).activity_consistency ≤ 1) ∧
    (0 ≤ (temporal_core g u).long_term_engagement ∧
      (temporal_core g u).long_term_engagement ≤ 1) ∧
    (0 ≤ (temporal_core g u).combined ∧ (temporal_core g u).combined ≤ 1) := by
  have h1 := qmin_one_nonneg_in01 (show (0:ℚ) ≤ (nodeAge g u : ℚ) / 730 by positivity)
  have h2 := qmin_one_nonneg_in01 (show (0:ℚ) ≤ (degree g u : ℚ) / 50 by positivity)
  have h3 := qmin_one_nonneg_in01
    (show (0:ℚ) ≤ ((inDegree g u : ℚ) + (outDegree g u : ℚ)) / 100 by positivity)
  simp only [temporal_core]
  exact ⟨h1, h2, h3,
    by linarith [h1.1, h2.1, h3.1], by linarith [h1.2, h2.2, h3.2]⟩

theorem economic_activity_bounds (g : Graph) (u : String) (dv ta : ℚ)
    (ha : economic_activity g u dv = some ta) : 0 ≤ ta ∧ ta ≤ 1 := by
  unfold economic_activity at ha
  split_ifs at ha with h1 h2
  · cases ha
    exact qmin_one_nonneg_in01 (le_of_lt h1)
  · cases ha
    exact qmin_one_nonneg_in01 (by positivity)

theorem economic_bounds (g : Graph) (u : String) (stk dv lnR : ℚ) (es : EconomicScores)
    (hln : 0 ≤ lnR) (hdv0 : 0 ≤ dv) (hdv1 : dv ≤ 1)
    (hes : economic_analysis g u (some ⟨stk, dv⟩) lnR = some es) :
    (0 ≤ es.stake_score ∧ es.stake_score ≤ 1) ∧
    (0 ≤ es.transaction_activity ∧ es.transaction_activity ≤ 1) ∧
    (0 ≤ es.account_age_score ∧ es.account_age_score ≤ 1) ∧
    (0 ≤ es.combined ∧ es.combined ≤ 1) := by
  have hss : 0 ≤ econ_stake_score g u (some ⟨stk, dv⟩) lnR ∧
      econ_stake_score g u (some ⟨stk, dv⟩) lnR ≤ 1 := by
    unfold econ_stake_score
    split_ifs
    · exact qmin_one_nonneg_in01 hln
    · norm_num
  have hage : 0 ≤ econ_age_score g u ∧ econ_age_score g u ≤ 1 := by
    unfold econ_age_score
    exact qmin_one_nonneg_in01 (by positivity)
  rcases ha : economic_activity g u (econ_diversity (some ⟨stk, dv⟩)) with _ | ta
  · rw [economic_analysis, ha] at hes
    simp at hes
  · have hta := economic_activity_bounds g u _ ta ha
    rw [economic_analysis, ha] at hes
    injection hes with hes
    subst hes
    refine ⟨hss, hta, hage, ?_, ?_⟩
    · show 0 ≤ econ_stake_score g u (some ⟨stk, dv⟩) lnR * 0.4 + ta * 0.3 +
        econ_age_score g u * 0.2 + dv * 0.1
      linarith [hss.1, hta.1, hage.1]
    · show econ_stake_score g u (some ⟨stk, dv⟩) lnR * 0.4 + ta * 0.3 +
        econ_age_score g u * 0.2 + dv * 0.1 ≤ 1
      linarith [hss.2, hta.2, hage.2]

/-- Claim C2 (amended): every sub-signal of the structural, behavioral,
temporal and economic analyses is clamped to [0,1] before combination —
except the economic dimension's raw `transaction_diversity`, which is not
clamped, so the economic `combined` score only stays in [0,1] when the
supplied diversity is at most 1 (the counterexample exceeds 1 at
diversity 20).  The structural, behavioral and temporal combined scores, the
final reputation and the overall Sybil risk always lie in [0,1]. -/
theorem score_ranges_amended (m : StructuralRaw) (e : ℚ) (bm : BehavioralRaw)
    (g : Graph) (u : String) (stk dv lnR : ℚ) (es : EconomicScores)
    (s : Scores) (risk : ℚ) (r : RiskScores)
    (hln : 0 ≤ lnR) (hdv0 : 0 ≤ dv) (hdv1 : dv ≤ 1)
    (hes : economic_analysis g u (some ⟨stk, dv⟩) lnR = some es) :
    (0 ≤ (normalize_structural m e).pagerank ∧ (normalize_structural m e).pagerank ≤ 1) ∧
    (0 ≤ (normalize_structural m e).betweenness ∧ (normalize_structural m e).betweenness ≤ 1) ∧
    (0 ≤ (normalize_structural m e).closeness ∧ (normalize_structural m e).closeness ≤ 1) ∧
    (0 ≤ (normalize_structural m e).degree ∧ (normalize_structural m e).degree ≤ 1) ∧
    (0 ≤ (normalize_structural m e).eigenvector ∧ (normalize_structural m e).eigenvector ≤ 1) ∧
    (0 ≤ (normalize_structural m e).community ∧ (normalize_structural m e).community ≤ 1) ∧
    (0 ≤ (normalize_structural m e).combined ∧ (normalize_structural m e).combined ≤ 1) ∧
    (0 ≤ (normalize_behavioral bm).engagement_consistency ∧
      (normalize_behavioral bm).engagement_consistency ≤ 1) ∧
    (0 ≤ (normalize_behavioral bm).reciprocity_rate ∧
      (normalize_behavioral bm).reciprocity_rate ≤ 1) ∧
    (0 ≤ (normalize_behavioral bm).content_diversity ∧
      (normalize_behavioral bm).content_diversity ≤ 1) ∧
    (0 ≤ (normalize_behavioral bm).connection_quality ∧
      (normalize_behavioral bm).connection_quality ≤ 1) ∧
    (0 ≤ (normalize_behavioral bm).response_patterns ∧
      (normalize_behavioral bm).response_patterns ≤ 1) ∧
    (0 ≤ (normalize_behavioral bm).activity_longevity ∧
      (normalize_behavioral bm).activity_longevity ≤ 1) ∧
    (0 ≤ (normalize_behavioral bm).posting_regularity ∧
      (normalize_behavioral bm).posting_regularity ≤ 1) ∧
    (0 ≤ (normalize_behavioral bm).combined ∧ (normalize_behavioral bm).combined ≤ 1) ∧
    (0 ≤ (temporal_core g u).account_age_score ∧ (temporal_core g u).account_age_score ≤ 1) ∧
    (0 ≤ (temporal_core g u).activity_consistency ∧
      (temporal_core g u).activity_consistency ≤ 1) ∧
    (0 ≤ (temporal_core g u).long_term_engagement ∧
      (temporal_core g u).long_term_engagement ≤ 1) ∧
    (0 ≤ (temporal_core g u).combined ∧ (temporal_core g u).combined ≤ 1) ∧
    (0 ≤ es.stake_score ∧ es.stake_score ≤ 1) ∧
    (0 ≤ es.transaction_activity ∧ es.transaction_activity ≤ 1) ∧
    (0 ≤ es.account_age_score ∧ es.account_age_score ≤ 1) ∧
    (0 ≤ es.combined ∧ es.combined ≤ 1) ∧
    (0 ≤ overall_reputation s risk ∧ overall_reputation s risk ≤ 1) ∧
    (0 ≤ combine_risk_factors r ∧ combine_risk_factors r ≤ 1) := by
  obtain ⟨s1, s2, s3, s4, s5, s6, s7⟩ := normalize_structural_bounds m e
  obtain ⟨b1, b2, b3, b4, b5, b6, b7, b8⟩ := normalize_behavioral_bounds bm
  obtain ⟨t1, t2, t3, t4⟩ := temporal_core_bounds g u
  obtain ⟨e1, e2, e3, e4⟩ := economic_bounds g u stk dv lnR es hln hdv0 hdv1 hes
  exact ⟨s1, s2, s3, s4, s5, s6, s7, b1, b2, b3, b4, b5, b6, b7, b8, t1, t2, t3, t4,
    e1, e2, e3, e4, ⟨pyClamp_nonneg _, pyClamp_le_one _⟩, clamp01_in01 _⟩

/-- Witness for claim C2: a one-node graph, stake data {stake 2, diversity
0.5}, log ratio 0.4, and concrete score/risk records. -/
theorem score_ranges_amended_witness :
    ((0:ℚ) ≤ 0.4 ∧ (0:ℚ) ≤ 0.5 ∧ (0.5:ℚ) ≤ 1 ∧
      economic_analysis ⟨["a"], [], []⟩ "a" (some ⟨2, 0.5⟩) 0.4 =
        some ⟨0.4, 0.5, 0, 0.5, 0.4 * 0.4 + 0.5 * 0.3 + 0 * 0.2 + 0.5 * 0.1⟩) ∧
    (0 ≤ (normalize_structural ⟨2, 0, 0, 0, 0, none⟩ 0).pagerank ∧
      (normalize_structural ⟨2, 0, 0, 0, 0, none⟩ 0).pagerank ≤ 1) ∧
    (0 ≤ (normalize_structural ⟨2, 0, 0, 0, 0, none⟩ 0).betweenness ∧
      (normalize_structural ⟨2, 0, 0, 0, 0, none⟩ 0).betweenness ≤ 1) ∧
    (0 ≤ (normalize_structural ⟨2, 0, 0, 0, 0, none⟩ 0).closeness ∧
      (normalize_structural ⟨2, 0, 0, 0, 0, none⟩ 0).closeness ≤ 1) ∧
    (0 ≤ (normalize_structural ⟨2, 0, 0, 0, 0, none⟩ 0).degree ∧
      (normalize_structural ⟨2, 0, 0, 0, 0, none⟩ 0).degree ≤ 1) ∧
    (0 ≤ (normalize_structural ⟨2, 0, 0, 0, 0, none⟩ 0).eigenvector ∧
      (normalize_structural ⟨2, 0, 0, 0, 0, none⟩ 0).eigenvector ≤ 1) ∧
    (0 ≤ (normalize_structural ⟨2, 0, 0, 0, 0, none⟩ 0).community ∧
      (normalize_structural ⟨2, 0, 0, 0, 0, none⟩ 0).community ≤ 1) ∧
    (0 ≤ (normalize_structural ⟨2, 0, 0, 0, 0, none⟩ 0).combined ∧
      (normalize_structural ⟨2, 0, 0, 0, 0, none⟩ 0).combined ≤ 1) ∧
    (0 ≤ (normalize_behavioral ⟨1, 1, 1, 1, 1, 1, 1⟩).engagement_consistency ∧
      (normalize_behavioral ⟨1, 1, 1, 1, 1, 1, 1⟩).engagement_consistency ≤ 1) ∧
    (0 ≤ (normalize_behavioral ⟨1, 1, 1, 1, 1, 1, 1⟩).reciprocity_rate ∧
      (normalize_behavioral ⟨1, 1, 1, 1, 1, 1, 1⟩).reciprocity_rate ≤ 1) ∧
    (0 ≤ (normalize_behavioral ⟨1, 1, 1, 1, 1, 1, 1⟩).content_diversity ∧
      (normalize_behavioral ⟨1, 1, 1, 1, 1, 1, 1⟩).content_diversity ≤ 1) ∧
    (0 ≤ (normalize_behavioral ⟨1, 1, 1, 1, 1, 1, 1⟩).connection_quality ∧
      (normalize_behavioral ⟨1, 1, 1, 1, 1, 1, 1⟩).connection_quality ≤ 1) ∧
    (0 ≤ (normalize_behavioral ⟨1, 1, 1, 1, 1, 1, 1⟩).response_patterns ∧
      (normalize_behavioral ⟨1, 1, 1, 1, 1, 1, 1⟩).response_patterns ≤ 1) ∧
    (0 ≤ (normalize_behavioral ⟨1, 1, 1, 1, 1, 1, 1⟩).activity_longevity ∧
      (normalize_behavioral ⟨1, 1, 1, 1, 1, 1, 1⟩).activity_longevity ≤ 1) ∧
    (0 ≤ (normalize_behavioral ⟨1, 1, 1, 1, 1, 1, 1⟩).posting_regularity ∧
      (normalize_behavioral ⟨1, 1, 1, 1, 1, 1, 1⟩).posting_regularity ≤ 1) ∧
    (0 ≤ (normalize_behavioral ⟨1, 1, 1, 1, 1, 1, 1⟩).combined ∧
      (normalize_behavioral ⟨1, 1, 1, 1, 1, 1, 1⟩).combined ≤ 1) ∧
    (0 ≤ (temporal_core ⟨["a"], [], []⟩ "a").account_age_score ∧
      (temporal_core ⟨["a"], [], []⟩ "a").account_age_score ≤ 1) ∧
    (0 ≤ (temporal_core ⟨["a"], [], []⟩ "a").activity_consistency ∧
      (temporal_core ⟨["a"], [], []⟩ "a").activity_consistency ≤ 1) ∧
    (0 ≤ (temporal_core ⟨["a"], [], []⟩ "a").long_term_engagement ∧
      (temporal_core ⟨["a"], [], []⟩ "a").long_term_engagement ≤ 1) ∧
    (0 ≤ (temporal_core ⟨["a"], [], []⟩ "a").combined ∧
      (temporal_core ⟨["a"], [], []⟩ "a").combined ≤ 1) ∧
    (0 ≤ (EconomicScores.mk 0.4 0.5 0 0.5
        (0.4 * 0.4 + 0.5 * 0.3 + 0 * 0.2 + 0.5 * 0.1)).stake_score ∧
      (EconomicScores.mk 0.4 0.5 0 0.5
        (0.4 * 0.4 + 0.5 * 0.3 + 0 * 0.2 + 0.5 * 0.1)).stake_score ≤ 1) ∧
    (0 ≤ (EconomicScores.mk 0.4 0.5 0 0.5
        (0.4 * 0.4 + 0.5 * 0.3 + 0 * 0.2 + 0.5 * 0.1)).transaction_activity ∧
      (EconomicScores.mk 0.4 0.5 0 0.5
        (0.4 * 0.4 + 0.5 * 0.3 + 0 * 0.2 + 0.5 * 0.1)).transaction_activity ≤ 1) ∧
    (0 ≤ (EconomicScores.mk 0.4 0.5 0 0.5
        (0.4 * 0.4 + 0.5 * 0.3 + 0 * 0.2 + 0.5 * 0.1)).account_age_score ∧
      (EconomicScores.mk 0.4 0.5 0 0.5
        (0.4 * 0.4 + 0.5 * 0.3 + 0 * 0.2 + 0.5 * 0.1)).account_age_score ≤ 1) ∧
    (0 ≤ (EconomicScores.mk 0.4 0.5 0 0.5
        (0.4 * 0.4 + 0.5 * 0.3 + 0 * 0.2 + 0.5 * 0.1)).combined ∧
      (EconomicScores.mk 0.4 0.5 0 0.5
        (0.4 * 0.4 + 0.5 * 0.3 + 0 * 0.2 + 0.5 * 0.1)).combined ≤ 1) ∧
    (0 ≤ overall_reputation cexScores 0 ∧ overall_reputation cexScores 0 ≤ 1) ∧
    (0 ≤ combine_risk_factors ⟨1, 1, 1, 1, 1⟩ ∧ combine_risk_factors ⟨1, 1, 1, 1, 1⟩ ≤ 1) :=
  ⟨⟨by norm_num, by norm_num, by norm_num,
      by norm_num [economic_analysis, economic_activity, econ_stake_score, econ_stake_amount,
        econ_diversity, econ_age_score, nodeStake, nodeAge, nodeDataOf, qmin, List.find?]⟩,
    score_ranges_amended ⟨2, 0, 0, 0, 0, none⟩ 0 ⟨1, 1, 1, 1, 1, 1, 1⟩ ⟨["a"], [], []⟩ "a"
      2 0.5 0.4 ⟨0.4, 0.5, 0, 0.5, 0.4 * 0.4 + 0.5 * 0.3 + 0 * 0.2 + 0.5 * 0.1⟩ cexScores 0
      ⟨1, 1, 1, 1, 1⟩ (by norm_num) (by norm_num) (by norm_num)
      (by norm_num [economic_analysis, economic_activity, econ_stake_score, econ_stake_amount,
        econ_diversity, econ_age_score, nodeStake, nodeAge, nodeDataOf, qmin, List.find?])⟩

/-! ## Coordinated-flagging analysis (claim C7)

`FlaggingAnalysisEngine.detect_coordinated_flagging` returns an empty signal
dictionary for an empty flag list, and otherwise populates all four signal
keys; the four scores are each ratios in [0,1] by construction. -/

/-- The per-signal scores read by `calculate_overall_coordination`: each
`Option` models presence of the corresponding key in the
`coordination_signals` dictionary (`temporal_clustering.burst_score`,
`reporter_connections.clique_coordination_score`,
`behavioral_similarity.similarity_score`, `content_patterns.pattern_score`). -/
structure CoordinationSignals where
  burst : Option ℚ
  clique : Option ℚ
  similarity : Option ℚ
  pattern : Option ℚ
  deriving DecidableEq, Repr

/-- `FlaggingAnalysisEngine.calculate_overall_coordination`: collect the
present signals with weights 0.3/0.4/0.2/0.1; return 0 when no signal is
present or the total weight is zero, else the weighted sum divided by the
total weight, clamped by `min(1.0, ·)`. -/
def calculate_overall_coordination (cs : CoordinationSignals) : ℚ :=
  let sw : List (ℚ × ℚ) :=
    (match cs.burst with | some b => [(b, 0.3)] | none => []) ++
    (match cs.clique with | some c => [(c, 0.4)] | none => []) ++
    (match cs.similarity with | some s => [(s, 0.2)] | none => []) ++
    (match cs.pattern with | some p => [(p, 0.1)] | none => [])
  if sw.isEmpty then 0
  else
    let total := (sw.map (fun q => q.2)).sum
    if total = 0 then 0
    else qmin 1 ((sw.map (fun q => q.1 * q.2)).sum / total)

/-- The `flagging_metrics` fields read by `assess_flagging_risk`
(`unique_reporters` with `.get` default 1 is always present here). -/
structure FlagMetrics where
  unique_reporters : ℕ
  average_confidence : ℚ
  deriving DecidableEq, Repr

/-- The `reporter_analysis` fields read by `assess_flagging_risk`. -/
structure ReporterCred where
  credible_reporters : ℕ
  average_reporter_reputation : ℚ
  deriving DecidableEq, Repr

structure RiskAssessment where
  legitimate_flag_risk : ℚ
  credible_reporter_impact : ℚ
  coordination_mitigation : ℚ
  overall_risk : ℚ
  deriving DecidableEq, Repr

/-- `FlaggingAnalysisEngine.assess_flagging_risk`: coordination mitigation
`1 - coordination_score`; legitimate-flag risk
`average_confidence · credible_ratio · 0.6`; credible-reporter impact
`average_confidence · (0.8 or 0.4) · 0.4`; overall risk
`min(1, (legitimate + credible) · mitigation)`. -/
def assess_flagging_risk (fm : FlagMetrics) (coordinationScore : ℚ)
    (ra : ReporterCred) : RiskAssessment :=
  let mitigation := 1 - coordinationScore
  let ratio : ℚ := if 0 < fm.unique_reporters then
    (ra.credible_reporters : ℚ) / (fm.unique_reporters : ℚ) else 0
  let legit := fm.average_confidence * ratio * 0.6
  let w : ℚ := if 0.7 ≤ ra.average_reporter_reputation then 0.8 else 0.4
  let cred := fm.average_confidence * w * 0.4
  ⟨legit, cred, mitigation, qmin 1 ((legit + cred) * mitigation)⟩

/-- Claim C7: with all four coordination signals present (as
`detect_coordinated_flagging` guarantees for a non-empty flag list) and each
component score in [0,1] (each is a ratio), the overall coordination score is
exactly the 0.3/0.4/0.2/0.1 weighted sum; and the assessed overall flagging
risk equals the legitimate-flag risk and the credible-reporter impact each
multiplied by `(1 - coordination_score)` before being summed (and capped). -/
theorem coordination_score_and_mitigation (b c s p : ℚ) (fm : FlagMetrics)
    (coord : ℚ) (ra : ReporterCred)
    (hb0 : 0 ≤ b) (hb1 : b ≤ 1) (hc0 : 0 ≤ c) (hc1 : c ≤ 1)
    (hs0 : 0 ≤ s) (hs1 : s ≤ 1) (hp0 : 0 ≤ p) (hp1 : p ≤ 1) :
    calculate_overall_coordination ⟨some b, some c, some s, some p⟩ =
      b * 0.3 + c * 0.4 + s * 0.2 + p * 0.1 ∧
    (assess_flagging_risk fm coord ra).overall_risk =
      qmin 1 ((assess_flagging_risk fm coord ra).legitimate_flag_risk * (1 - coord) +
        (assess_flagging_risk fm coord ra).credible_reporter_impact * (1 - coord)) := by
  constructor
  · unfold calculate_overall_coordination
    simp only [List.cons_append, List.nil_append, List.isEmpty_cons, List.map_cons,
      List.map_nil, List.sum_cons, List.sum_nil]
    norm_num
    rw [qmin_eq_min, min_eq_right (by linarith)]
    ring
  · unfold assess_flagging_risk
    dsimp only
    congr 1
    ring

/-- Witness for claim C7: all four signals 0.5, 2 unique reporters of which 1
credible, average confidence 0.5, coordination 0.5, reporter reputation 0.5. -/
theorem coordination_score_and_mitigation_witness :
    ((0:ℚ) ≤ 0.5 ∧ (0.5:ℚ) ≤ 1) ∧
    (calculate_overall_coordination ⟨some 0.5, some 0.5, some 0.5, some 0.5⟩ =
        0.5 * 0.3 + 0.5 * 0.4 + 0.5 * 0.2 + 0.5 * 0.1 ∧
      (assess_flagging_risk ⟨2, 0.5⟩ 0.5 ⟨1, 0.5⟩).overall_risk =
        qmin 1 ((assess_flagging_risk ⟨2, 0.5⟩ 0.5 ⟨1, 0.5⟩).legitimate_flag_risk * (1 - 0.5) +
          (assess_flagging_risk ⟨2, 0.5⟩ 0.5 ⟨1, 0.5⟩).credible_reporter_impact * (1 - 0.5))) :=
  ⟨⟨by norm_num, by norm_num⟩,
    coordination_score_and_mitigation 0.5 0.5 0.5 0.5 ⟨2, 0.5⟩ 0.5 ⟨1, 0.5⟩
      (by norm_num) (by norm_num) (by norm_num) (by norm_num)
      (by norm_num) (by norm_num) (by norm_num) (by norm_num)⟩

/-! ## Incremental graph updates (claim C8) -/

/-- A new interaction consumed by the incremental-update paths
(`from_user`, `to_user`, and `weight` with `.get` default 1.0). -/
structure Interaction where
  from_user : String
  to_user : String
  weight : ℚ
  deriving DecidableEq, Repr

/-- The ordered (source, target) key of every aggregated edge. -/
def edgeKeys (edges : List (String × String × ℚ)) : List (String × String) :=
  edges.map (fun e => (e.1, e.2.1))

/-- `DiGraph.add_edge` implicitly adds missing endpoints as nodes. -/
def addNode (ns : List String) (x : String) : List String :=
  if ns.contains x then ns else ns ++ [x]

/-- `graph.add_edge(u, v, weight=w)` for a pair with no existing edge. -/
def addEdge (g : Graph) (u v : String) (w : ℚ) : Graph :=
  ⟨addNode (addNode g.nodes u) v, g.edges ++ [(u, v, w)], g.nodeData⟩

/-- `graph[u][v]["weight"] = f(current)`: rewrite the weight of the (u,v)
edge in place. -/
def updateEdgeWeight (edges : List (String × String × ℚ)) (u v : String)
    (f : ℚ → ℚ) : List (String × String × ℚ) :=
  edges.map (fun e => if e.1 == u && e.2.1 == v then (e.1, e.2.1, f e.2.2) else e)

/-- One interaction of `AdvancedGraphAnalyzer.incremental_update`: skipped
when either endpoint is falsy (the empty string models Python's
`if from_user and to_user`); an existing edge's weight becomes
`current_weight + weight`; otherwise the edge is added. -/
def analyzer_apply_interaction (g : Graph) (i : Interaction) : Graph :=
  if i.from_user ≠ "" ∧ i.to_user ≠ "" then
    if hasEdge g i.from_user i.to_user then
      ⟨g.nodes, updateEdgeWeight g.edges i.from_user i.to_user (fun w => w + i.weight),
        g.nodeData⟩
    else addEdge g i.from_user i.to_user i.weight
  else g

/-- One interaction of `OptimizedGraphProcessor.incremental_updates`: the same
shape, but an existing edge's weight becomes `(current_weight + weight) / 2`. -/
def processor_apply_interaction (g : Graph) (i : Interaction) : Graph :=
  if i.from_user ≠ "" ∧ i.to_user ≠ "" then
    if hasEdge g i.from_user i.to_user then
      ⟨g.nodes, updateEdgeWeight g.edges i.from_user i.to_user (fun w => (w + i.weight) / 2),
        g.nodeData⟩
    else addEdge g i.from_user i.to_user i.weight
  else g

/-- The edge-mutation loop of `AdvancedGraphAnalyzer.incremental_update`. -/
def analyzer_incremental (g : Graph) (ints : List Interaction) : Graph :=
  ints.foldl analyzer_apply_interaction g

/-- The edge-mutation loop of `OptimizedGraphProcessor.incremental_updates`. -/
def processor_incremental (g : Graph) (ints : List Interaction) : Graph :=
  ints.foldl processor_apply_interaction g

theorem findEdge_updateEdgeWeight (edges : List (String × String × ℚ)) (u v : String)
    (f : ℚ → ℚ) (w0 : ℚ) (hw : findEdge edges u v = some w0) :
    findEdge (updateEdgeWeight edges u v f) u v = some (f w0) := by
  induction edges with
  | nil => simp [findEdge] at hw
  | cons a t ih =>
    unfold updateEdgeWeight at ih ⊢
    by_cases h : (a.1 == u && a.2.1 == v) = true
    · rw [List.map_cons, if_pos h]
      unfold findEdge at hw ⊢
      rw [if_pos h] at hw
      dsimp only
      rw [if_pos h]
      injection hw with hw
      rw [hw]
    · rw [List.map_cons, if_neg h]
      unfold findEdge at hw ⊢
      rw [if_neg h] at hw
      rw [if_neg h]
      exact ih hw

theorem edgeKeys_updateEdgeWeight (edges : List (String × String × ℚ)) (u v : String)
    (f : ℚ → ℚ) : edgeKeys (updateEdgeWeight edges u v f) = edgeKeys edges := by
  induction edges with
  | nil => rfl
  | cons a t ih =>
    unfold updateEdgeWeight edgeKeys at ih ⊢
    simp only [List.map_cons]
    rw [ih]
    by_cases h : (a.1 == u && a.2.1 == v) = true
    · rw [if_pos h]
    · rw [if_neg h]

theorem findEdge_none_pred_false (edges : List (String × String × ℚ)) (u v : String)
    (h : findEdge edges u v = none) (e : String × String × ℚ) (he : e ∈ edges) :
    (e.1 == u && e.2.1 == v) = false := by
  induction edges with
  | nil => cases he
  | cons a t ih =>
    unfold findEdge at h
    by_cases hp : (a.1 == u && a.2.1 == v) = true
    · rw [if_pos hp] at h
      cases h
    · rw [if_neg hp] at h
      rcases List.mem_cons.mp he with rfl | hmem
      · simpa using hp
      · exact ih h hmem

theorem hasEdge_false_key_not_mem (g : Graph) (u v : String)
    (h : hasEdge g u v = false) : (u, v) ∉ edgeKeys g.edges := by
  intro hmem
  unfold edgeKeys at hmem
  rcases List.mem_map.mp hmem with ⟨e, he, hkey⟩
  have h1 : e.1 = u := congrArg Prod.fst hkey
  have h2 : e.2.1 = v := congrArg Prod.snd hkey
  unfold hasEdge lookupEdge at h
  rcases hf : findEdge g.edges u v with _ | x
  · have := findEdge_none_pred_false g.edges u v hf e he
    rw [h1, h2] at this
    simp at this
  · rw [hf] at h
    simp at h

theorem nodup_analyzer_apply (g : Graph) (i : Interaction)
    (h : (edgeKeys g.edges).Nodup) :
    (edgeKeys (analyzer_apply_interaction g i).edges).Nodup := by
  unfold analyzer_apply_interaction
  split_ifs with h1 h2
  · simpa [edgeKeys_updateEdgeWeight] using h
  · unfold addEdge edgeKeys
    simp only [List.map_append, List.map_cons, List.map_nil]
    refine List.Nodup.append h (List.nodup_singleton _) ?_
    intro k hk hk2
    simp only [List.mem_singleton] at hk2
    subst hk2
    exact hasEdge_false_key_not_mem g i.from_user i.to_user (by simpa using h2) hk
  · exact h

theorem nodup_processor_apply (g : Graph) (i : Interaction)
    (h : (edgeKeys g.edges).Nodup) :
    (edgeKeys (processor_apply_interaction g i).edges).Nodup := by
  unfold processor_apply_interaction
  split_ifs with h1 h2
  · simpa [edgeKeys_updateEdgeWeight] using h
  · unfold addEdge edgeKeys
    simp only [List.map_append, List.map_cons, List.map_nil]
    refine List.Nodup.append h (List.nodup_singleton _) ?_
    intro k hk hk2
    simp only [List.mem_singleton] at hk2
    subst hk2
    exact hasEdge_false_key_not_mem g i.from_user i.to_user (by simpa using h2) hk
  · exact h

theorem nodup_analyzer_incremental (g : Graph) (ints : List Interaction)
    (h : (edgeKeys g.edges).Nodup) :
    (edgeKeys (analyzer_incremental g ints).edges).Nodup := by
  induction ints generalizing g with
  | nil => exact h
  | cons i t ih => exact ih _ (nodup_analyzer_apply g i h)

theorem nodup_processor_incremental (g : Graph) (ints : List Interaction)
    (h : (edgeKeys g.edges).Nodup) :
    (edgeKeys (processor_incremental g ints).edges).Nodup := by
  induction ints generalizing g with
  | nil => exact h
  | cons i t ih => exact ih _ (nodup_processor_apply g i h)

/-- The one-edge graph used to refute claim C8 on the processor path. -/
def c8Graph : Graph := ⟨["a", "b"], [("a", "b", 1)], []⟩

/-- Claim C8 (counterexample): a repeated interaction of weight 1 on the
existing ("a","b") edge of weight 1.  `OptimizedGraphProcessor.
incremental_updates` stores `(1+1)/2 = 1`, not the claimed sum `1+1 = 2`. -/
theorem processor_average_merge_cex :
    lookupEdge (processor_apply_interaction c8Graph ⟨"a", "b", 1⟩) "a" "b" = some 1 ∧
    lookupEdge (processor_apply_interaction c8Graph ⟨"a", "b", 1⟩) "a" "b" ≠
      some ((1:ℚ) + 1) := by
  have h : lookupEdge (processor_apply_interaction c8Graph ⟨"a", "b", 1⟩) "a" "b" = some 1 := by
    simp [processor_apply_interaction, c8Graph, hasEdge, lookupEdge, updateEdgeWeight,
      findEdge]
  refine ⟨h, ?_⟩
  rw [h]
  intro hc
  injection hc with hc
  norm_num at hc

/-- Claim C8 (amended): each incremental-update path keeps at most one
aggregated edge per ordered pair (duplicate-freeness of edge keys is
preserved over any interaction sequence), and a repeated interaction merges
into the existing edge — the analyzer path by accumulating
`current + weight`, whereas the processor path stores the running average
`(current + weight)/2` rather than the sum. -/
theorem incremental_update_merge (g : Graph) (i : Interaction) (w0 : ℚ)
    (ints : List Interaction)
    (hu : i.from_user ≠ "") (hv : i.to_user ≠ "")
    (hw : lookupEdge g i.from_user i.to_user = some w0)
    (hnd : (edgeKeys g.edges).Nodup) :
    lookupEdge (analyzer_apply_interaction g i) i.from_user i.to_user =
      some (w0 + i.weight) ∧
    lookupEdge (processor_apply_interaction g i) i.from_user i.to_user =
      some ((w0 + i.weight) / 2) ∧
    (edgeKeys (analyzer_incremental g ints).edges).Nodup ∧
    (edgeKeys (processor_incremental g ints).edges).Nodup := by
  have hhas : hasEdge g i.from_user i.to_user = true := by
    unfold hasEdge
    rw [hw]
    rfl
  refine ⟨?_, ?_, nodup_analyzer_incremental g ints hnd, nodup_processor_incremental g ints hnd⟩
  · unfold analyzer_apply_interaction
    rw [if_pos ⟨hu, hv⟩, if_pos hhas]
    unfold lookupEdge
    exact findEdge_updateEdgeWeight g.edges i.from_user i.to_user
      (fun w => w + i.weight) w0 hw
  · unfold processor_apply_interaction
    rw [if_pos ⟨hu, hv⟩, if_pos hhas]
    unfold lookupEdge
    exact findEdge_updateEdgeWeight g.edges i.from_user i.to_user
      (fun w => (w + i.weight) / 2) w0 hw

/-- Witness for claim C8: the one-edge graph, a repeated ("a","b")
interaction of weight 3, and a one-interaction update sequence. -/
theorem incremental_update_merge_witness :
    (("a":String) ≠ "" ∧ ("b":String) ≠ "" ∧
      lookupEdge c8Graph "a" "b" = some 1 ∧ (edgeKeys c8Graph.edges).Nodup) ∧
    (lookupEdge (analyzer_apply_interaction c8Graph ⟨"a", "b", 3⟩) "a" "b" =
        some ((1:ℚ) + 3) ∧
      lookupEdge (processor_apply_interaction c8Graph ⟨"a", "b", 3⟩) "a" "b" =
        some (((1:ℚ) + 3) / 2) ∧
      (edgeKeys (analyzer_incremental c8Graph [⟨"a", "b", 3⟩]).edges).Nodup ∧
      (edgeKeys (processor_incremental c8Graph [⟨"a", "b", 3⟩]).edges).Nodup) :=
  ⟨⟨by simp, by simp, by simp [c8Graph, lookupEdge, findEdge], by simp [c8Graph, edgeKeys]⟩,
    incremental_update_merge c8Graph ⟨"a", "b", 3⟩ 1 [⟨"a", "b", 3⟩]
      (by simp) (by simp) (by simp [c8Graph, lookupEdge, findEdge])
      (by simp [c8Graph, edgeKeys])⟩

/-! ## Trust-weighted PageRank (claim C10) -/

/-- Python's `abs`. -/
def qabs (x : ℚ) : ℚ := if x ≤ 0 then -x else x

/-- `scores[node]` for the score dictionary keyed by the node list (every
looked-up key is present along this code path; 0 is returned for a key that
is absent, which never happens here). -/
def getScore : List (String × ℚ) → String → ℚ
  | [], _ => 0
  | p :: t, n => if p.1 == n then p.2 else getScore t n

/-- `graph.in_edges(n, data=True)`. -/
def inEdges (g : Graph) (n : String) : List (String × String × ℚ) :=
  g.edges.filter (fun e => e.2.1 == n)

/-- One node's new score inside `compute_trust_weighted_pagerank`'s loop:
`(1-d)/N + d · Σ score[u] · (weight/out_degree(u)) · trust_weight(u,n)` over
in-edges whose source has positive out-degree. -/
def newScore (g : Graph) (sw rw : Option (List (String × ℚ))) (d : ℚ)
    (scores : List (String × ℚ)) (n : String) : ℚ :=
  (1 - d) / (g.nodes.length : ℚ) + d *
    ((inEdges g n).map (fun e =>
      if 0 < outDegree g e.1 then
        getScore scores e.1 * (e.2.2 / (outDegree g e.1 : ℚ)) *
          calc_trust_weight g e.1 n sw rw
      else 0)).sum

/-- One iteration: the new score of every node, in node order. -/
def pagerankStep (g : Graph) (sw rw : Option (List (String × ℚ))) (d : ℚ)
    (scores : List (String × ℚ)) : List (String × ℚ) :=
  g.nodes.map (fun n => (n, newScore g sw rw d scores n))

/-- The iteration's `total_change`: `Σ |new_score - score|` over the nodes. -/
def pagerankChange (g : Graph) (sw rw : Option (List (String × ℚ))) (d : ℚ)
    (scores : List (String × ℚ)) : ℚ :=
  (g.nodes.map (fun n => qabs (newScore g sw rw d scores n - getScore scores n))).sum

/-- The `for iteration in range(max_iterations)` loop: step, then stop early
when the total change drops below 1e-6. -/
def pagerankLoop (g : Graph) (sw rw : Option (List (String × ℚ))) (d : ℚ) :
    ℕ → List (String × ℚ) → List (String × ℚ)
  | 0, scores => scores
  | k + 1, scores =>
    if pagerankChange g sw rw d scores < 1 / 1000000 then pagerankStep g sw rw d scores
    else pagerankLoop g sw rw d k (pagerankStep g sw rw d scores)

/-- `min(scores.values())` (0 for the empty dictionary, never taken). -/
def minValue (scores : List (String × ℚ)) : ℚ :=
  match scores with
  | [] => 0
  | x :: xs => (xs.map (fun p => p.2)).foldl qmin x.2

/-- `max(scores.values())` (0 for the empty dictionary, never taken). -/
def maxValue (scores : List (String × ℚ)) : ℚ :=
  match scores with
  | [] => 0
  | x :: xs => (xs.map (fun p => p.2)).foldl qmax x.2

/-- `score_range = max - min if max > min else 1.0`. -/
def pagerankRange (scores : List (String × ℚ)) : ℚ :=
  if minValue scores < maxValue scores then maxValue scores - minValue scores else 1

/-- `AdvancedGraphAnalyzer._normalize_pagerank_scores`: min-max normalization
`(score - min)/range` (with the `if range > 0 else 0` guard of the source);
the empty dictionary maps to the empty dictionary. -/
def normalize_pagerank (scores : List (String × ℚ)) : List (String × ℚ) :=
  if scores.isEmpty then []
  else
    scores.map (fun p =>
      (p.1, if 0 < pagerankRange scores then (p.2 - minValue scores) / pagerankRange scores
        else 0))

/-- `AdvancedGraphAnalyzer.compute_trust_weighted_pagerank`: empty graph →
empty mapping; else initialize every node at 1/N, iterate at most 100 times
with damping 0.85 (the call sites use the defaults), and min-max normalize. -/
def compute_trust_weighted_pagerank (g : Graph)
    (sw rw : Option (List (String × ℚ))) : List (String × ℚ) :=
  if g.nodes.isEmpty then []
  else normalize_pagerank (pagerankLoop g sw rw (17/20) 100
    (g.nodes.map (fun n => (n, 1 / (g.nodes.length : ℚ)))))

theorem foldl_qmin_mem (a : ℚ) (l : List ℚ) : l.foldl qmin a ∈ a :: l := by
  induction l generalizing a with
  | nil => simp [List.foldl_nil]
  | cons b t ih =>
    simp only [List.foldl_cons]
    have hq : qmin a b = a ∨ qmin a b = b := by
      unfold qmin
      split_ifs
      · exact Or.inl rfl
      · exact Or.inr rfl
    rcases List.mem_cons.mp (ih (qmin a b)) with h | h
    · rw [h]
      rcases hq with h2 | h2 <;> rw [h2]
      · exact List.mem_cons_self _ _
      · exact List.mem_cons_of_mem _ (List.mem_cons_self _ _)
    · exact List.mem_cons_of_mem _ (List.mem_cons_of_mem _ h)

theorem minValue_attained (scores : List (String × ℚ)) (hne : scores ≠ []) :
    ∃ p, p ∈ scores ∧ p.2 = minValue scores := by
  match scores with
  | [] => exact absurd rfl hne
  | x :: xs =>
    unfold minValue
    rcases List.mem_cons.mp (foldl_qmin_mem x.2 (xs.map (fun p => p.2))) with h | h
    · exact ⟨x, List.mem_cons_self _ _, h.symm⟩
    · rcases List.mem_map.mp h with ⟨p, hp, hval⟩
      exact ⟨p, List.mem_cons_of_mem _ hp, hval⟩

theorem normalize_min_mem_zero (scores : List (String × ℚ)) (n : String) (s : ℚ)
    (hmem : (n, s) ∈ scores) (hs : s = minValue scores) :
    (n, 0) ∈ normalize_pagerank scores := by
  have hne : scores.isEmpty = false := by
    cases scores
    · cases hmem
    · rfl
  unfold normalize_pagerank
  rw [hne, if_neg (by simp)]
  have hmap := List.mem_map_of_mem
    (fun p : String × ℚ =>
      (p.1, if 0 < pagerankRange scores then (p.2 - minValue scores) / pagerankRange scores
        else 0)) hmem
  have hval : (if 0 < pagerankRange scores then (s - minValue scores) / pagerankRange scores
      else 0) = 0 := by
    rw [hs]
    split_ifs
    · rw [sub_self, zero_div]
    · rfl
  dsimp only at hmap
  rw [hval] at hmap
  exact hmap

/-- The singleton graph for the second half of claim C10. -/
def singleGraph : Graph := ⟨["u"], [], []⟩

theorem pagerank_single_node :
    compute_trust_weighted_pagerank singleGraph none none = [("u", 0)] := by
  have hstep : ∀ s : List (String × ℚ),
      pagerankStep singleGraph none none (17/20) s = [("u", 3/20)] := by
    intro s
    simp [pagerankStep, newScore, inEdges, singleGraph]
    norm_num
  have hchange1 : pagerankChange singleGraph none none (17/20)
      (singleGraph.nodes.map (fun n => (n, 1 / (singleGraph.nodes.length : ℚ)))) = 17/20 := by
    simp [pagerankChange, newScore, inEdges, getScore, qabs, singleGraph]
    norm_num
  have hchange2 : pagerankChange singleGraph none none (17/20) [("u", 3/20)] = 0 := by
    simp [pagerankChange, newScore, inEdges, getScore, qabs, singleGraph]
    norm_num
  unfold compute_trust_weighted_pagerank
  rw [if_neg (by simp [singleGraph])]
  rw [show (100:ℕ) = 99 + 1 by norm_num]
  unfold pagerankLoop
  rw [hchange1, if_neg (by norm_num), hstep]
  show normalize_pagerank (pagerankLoop singleGraph none none (17/20) (98 + 1)
    [("u", 3/20)]) = [("u", 0)]
  unfold pagerankLoop
  rw [hchange2, if_pos (by norm_num), hstep]
  simp [normalize_pagerank, pagerankRange, minValue, maxValue]

/-- Claim C10: after min-max normalization every actor attaining the minimum
raw PageRank score is assigned exactly 0 (so a minimum-attaining entry always
exists and receives 0), and the single-node edgeless graph yields score 0 for
its node through the full trust-weighted PageRank computation. -/
theorem pagerank_minmax_normalization (scores : List (String × ℚ)) (n : String) (s : ℚ)
    (hmem : (n, s) ∈ scores) (hs : s = minValue scores) :
    (n, 0) ∈ normalize_pagerank scores ∧
    (∃ p, p ∈ normalize_pagerank scores ∧ p.2 = 0) ∧
    compute_trust_weighted_pagerank singleGraph none none = [("u", 0)] := by
  refine ⟨normalize_min_mem_zero scores n s hmem hs, ?_, pagerank_single_node⟩
  have hne : scores ≠ [] := by
    intro h
    subst h
    cases hmem
  obtain ⟨p, hp, hpv⟩ := minValue_attained scores hne
  exact ⟨(p.1, 0), normalize_min_mem_zero scores p.1 p.2 hp hpv, rfl⟩

/-- Witness for claim C10: the score table [("a",3), ("b",1)] whose minimum 1
is attained at "b". -/
theorem pagerank_minmax_normalization_witness :
    (("b", (1:ℚ)) ∈ [("a", (3:ℚ)), ("b", 1)] ∧
      (1:ℚ) = minValue [("a", 3), ("b", 1)]) ∧
    (("b", (0:ℚ)) ∈ normalize_pagerank [("a", 3), ("b", 1)] ∧
      (∃ p, p ∈ normalize_pagerank [("a", 3), ("b", 1)] ∧ p.2 = 0) ∧
      compute_trust_weighted_pagerank singleGraph none none = [("u", 0)]) :=
  ⟨⟨by simp, by simp [minValue, qmin]⟩,
    pagerank_minmax_normalization [("a", 3), ("b", 1)] "b" 1 (by simp)
      (by simp [minValue, qmin])⟩

/-! ## Behavioral metrics and the per-actor pipeline (claim C6)

networkx raises for a node absent from the graph: `successors`/`predecessors`
raise `NetworkXError`, and `in_degree`/`out_degree`/`degree` return a degree
view on which the subsequent arithmetic raises `TypeError`.  Only
`structural_analysis` and the top level guard membership; the other metrics
reach those calls unguarded, so their `Option` wrappers return `none` for an
absent node, modelling the raised exception. -/

/-- `analyze_engagement_patterns`: `1 - |in-out|/(in+out)`, 0 at degree 0. -/
def analyze_engagement_patterns (g : Graph) (u : String) : ℚ :=
  if ((inDegree g u : ℚ) + (outDegree g u : ℚ)) = 0 then 0
  else 1 - qabs ((inDegree g u : ℚ) - (outDegree g u : ℚ)) /
    ((inDegree g u : ℚ) + (outDegree g u : ℚ))

/-- `len(out_neighbors & in_neighbors)`. -/
def mutualCount (g : Graph) (u : String) : ℕ :=
  ((successors g u).filter (fun x => (predecessors g u).contains x)).length

/-- `len(out_neighbors | in_neighbors)`. -/
def unionCount (g : Graph) (u : String) : ℕ :=
  (successors g u).length +
    ((predecessors g u).filter (fun x => !(successors g u).contains x)).length

/-- `calculate_reciprocity`: mutual over union, 0 when the union is empty. -/
def calculate_reciprocity (g : Graph) (u : String) : ℚ :=
  if unionCount g u = 0 then 0 else (mutualCount g u : ℚ) / (unionCount g u : ℚ)

/-- `analyze_response_patterns`: the same mutual-over-union ratio. -/
def analyze_response_patterns (g : Graph) (u : String) : ℚ :=
  if unionCount g u = 0 then 0 else (mutualCount g u : ℚ) / (unionCount g u : ℚ)

/-- `analyze_content_diversity`: under 2 neighbors → 0; else the number of
distinct successor-counts among the first 10 neighbors, over
`max(len(neighbors), 1)`, capped at 1. -/
def analyze_content_diversity (g : Graph) (u : String) : ℚ :=
  if (successors g u).length < 2 then 0
  else qmin 1 (((((successors g u).take 10).map (fun n => outDegree g n)).eraseDups).length :
    ℚ) / (max (successors g u).length 1 : ℚ)

/-- `analyze_connection_quality`: no neighbors → 0; else the mean of
`min(1, degree/50)` over the first 20 neighbors (the 0.5 fallback for an
empty sample is unreachable). -/
def analyze_connection_quality (g : Graph) (u : String) : ℚ :=
  if (successors g u).length = 0 then 0
  else
    if (((successors g u).take 20).map (fun n => qmin 1 ((degree g n : ℚ) / 50))).length = 0
    then 0.5
    else (((successors g u).take 20).map (fun n => qmin 1 ((degree g n : ℚ) / 50))).sum /
      ((((successors g u).take 20).map (fun n => qmin 1 ((degree g n : ℚ) / 50))).length : ℚ)

/-- `analyze_account_age_activity`: `min(1, degree/100)`. -/
def analyze_account_age_activity (g : Graph) (u : String) : ℚ :=
  qmin 1 ((degree g u : ℚ) / 100)

/-- `analyze_posting_regularity`: `min(1, out_degree/50)`. -/
def analyze_posting_regularity (g : Graph) (u : String) : ℚ :=
  qmin 1 ((outDegree g u : ℚ) / 50)

/-- The behavioral score bundle for a node present in the graph. -/
def behavioral_core (g : Graph) (u : String) : BehavioralScores :=
  normalize_behavioral
    ⟨analyze_engagement_patterns g u, calculate_reciprocity g u,
      analyze_content_diversity g u, analyze_connection_quality g u,
      analyze_response_patterns g u, analyze_account_age_activity g u,
      analyze_posting_regularity g u⟩

/-- `behavioral_analysis`: its first metric already applies arithmetic to the
networkx degree views, which raises for an absent node (`none`). -/
def behavioral_analysis (g : Graph) (u : String) : Option BehavioralScores :=
  if memNode g u then some (behavioral_core g u) else none

/-- `analyze_community_embeddedness` in its simplified branch (python-louvain
not installed): the triadic-closure ratio among the actor's neighbors — the
number of ordered neighbor pairs (n1,n2), n1 ≠ n2, joined by an edge, over
`k(k-1)`.  (With Louvain installed the source delegates to the external
community detection instead.) -/
def analyze_community_embeddedness (g : Graph) (u : String) : ℚ :=
  if (successors g u).length < 2 then 0
  else
    (((successors g u).map (fun n1 =>
      ((successors g u).filter (fun n2 => !(n1 == n2) && hasEdge g n1 n2)).length)).sum : ℚ) /
      (((successors g u).length * ((successors g u).length - 1) : ℕ) : ℚ)

/-- The externally computed (networkx) centrality maps consumed by
`structural_analysis` — each call site wraps the library call in try/except
defaulting to 0.0, so the oracle provides the computed-or-0 value — plus the
optionally wired sybil detector (the per-actor `overall_risk` of
`comprehensive_risk_analysis`). -/
structure Oracle where
  pagerank : String → ℚ
  betweenness : String → ℚ
  closeness : String → ℚ
  degreeCent : String → ℚ
  eigenvector : String → ℚ
  risk : Option (String → ℚ)

/-- `_empty_structural_scores`: every sub-signal and the combined score 0. -/
def empty_structural_scores : StructuralScores := ⟨0, 0, 0, 0, 0, 0, 0⟩

/-- `structural_analysis` as called without stake/reputation weights: the
membership guard returning the all-zero scores, else the oracle centralities,
the community embeddedness, and the normalizer (the `eigenvector` key absent
from the raw metrics, so the normalizer computes it from the oracle). -/
def structural_analysis (g : Graph) (u : String) (o : Oracle) : StructuralScores :=
  if memNode g u then
    normalize_structural
      ⟨o.pagerank u, o.betweenness u, o.closeness u, o.degreeCent u,
        analyze_community_embeddedness g u, none⟩ (o.eigenvector u)
  else empty_structural_scores

/-- `content_quality_analysis` with no Guardian integrator configured (or no
content items found): the neutral default {combined 0.5, ratio 0.5}, with no
`average_confidence` key. -/
def content_quality_analysis : ContentScores := ⟨0.5, 0.5, none⟩

/-- The economic scores along the fused path (node present, no explicit stake
data: diversity 0, activity from the degree). -/
def economic_core (g : Graph) (u : String) (lnRatio : ℚ) : EconomicScores :=
  ⟨econ_stake_score g u none lnRatio, qmin 1 ((degree g u : ℚ) / 100), econ_age_score g u, 0,
    econ_stake_score g u none lnRatio * 0.4 + qmin 1 ((degree g u : ℚ) / 100) * 0.3 +
      econ_age_score g u * 0.2 + 0 * 0.1⟩

theorem economic_analysis_present (g : Graph) (u : String) (lnR : ℚ)
    (h : memNode g u = true) :
    economic_analysis g u none lnR = some (economic_core g u lnR) := by
  unfold economic_analysis economic_activity
  rw [show econ_diversity none = 0 from rfl, if_neg (by norm_num), if_pos h]
  rfl

/-- The analyzer's per-actor result: the five score dimensions, the overall
risk, the risk-penalized overall reputation, and the confidence (a key the
sentinel result does not carry). -/
structure AnalysisResult where
  scores : Scores
  overall_risk : ℚ
  overall_reputation : ℚ
  confidence : Option ℚ
  deriving DecidableEq, Repr

/-- `_empty_analysis`: the sentinel for an actor absent from the graph —
all-zero scores (the empty behavioral dictionary and the absent temporal
dictionary read as 0 through `.get` defaults), `overall_risk` 1.0,
`overall_reputation` 0.0, no confidence key. -/
def empty_analysis : AnalysisResult := ⟨⟨0, 0, ⟨0, 0, none⟩, 0, 0⟩, 1, 0, none⟩

/-- `compute_comprehensive_reputation` (no stake data, as `ReputationEngine`
calls it): membership guard returning the sentinel, else the five dimensional
analyses, the detector risk (0.0 with no detector wired), the fused,
risk-penalized overall reputation, and the confidence. -/
def compute_comprehensive_reputation (g : Graph) (u : String) (o : Oracle)
    (lnRatio : ℚ) : AnalysisResult :=
  if memNode g u then
    ⟨⟨(structural_analysis g u o).combined, (behavioral_core g u).combined,
        content_quality_analysis, (economic_core g u lnRatio).combined,
        (temporal_core g u).combined⟩,
      (match o.risk with
        | some f => f u
        | none => 0),
      overall_reputation
        ⟨(structural_analysis g u o).combined, (behavioral_core g u).combined,
          content_quality_analysis, (economic_core g u lnRatio).combined,
          (temporal_core g u).combined⟩
        (match o.risk with
          | some f => f u
          | none => 0),
      some (calculate_confidence
        ⟨(structural_analysis g u o).combined, (behavioral_core g u).combined,
          content_quality_analysis, (economic_core g u lnRatio).combined,
          (temporal_core g u).combined⟩)⟩
  else empty_analysis

/-- Claim C6 (counterexample): for an actor absent from the graph the
behavioral metric does not return an all-zero score bundle — it raises
(networkx fails on the missing node; `none` models the exception), carrying
no bundle at all. -/
theorem behavioral_missing_actor_raises_cex :
    behavioral_analysis ⟨[], [], []⟩ "u" = none ∧
    behavioral_analysis ⟨[], [], []⟩ "u" ≠ some (normalize_behavioral ⟨0, 0, 0, 0, 0, 0, 0⟩) := by
  have h : behavioral_analysis ⟨[], [], []⟩ "u" = none := by
    unfold behavioral_analysis memNode
    simp
  exact ⟨h, by rw [h]; exact fun hc => Option.noConfusion hc⟩

/-- Claim C6 (amended): for an actor absent from the graph, the structural
metric alone returns all-zero sub-signals (`_empty_structural_scores`); the
behavioral, temporal, and economic metrics (the latter whenever it falls back
to the graph degree, i.e. without explicit positive transaction diversity)
raise networkx errors instead of returning zeros; and the top-level per-actor
computation checks membership first and returns the well-formed sentinel
(`_empty_analysis`: zero scores, risk 1, reputation 0) rather than raising. -/
theorem missing_actor_behavior (g : Graph) (u : String) (o : Oracle) (lnR : ℚ)
    (h : memNode g u = false) :
    structural_analysis g u o = empty_structural_scores ∧
    behavioral_analysis g u = none ∧
    economic_analysis g u none lnR = none ∧
    temporal_analysis g u = none ∧
    compute_comprehensive_reputation g u o lnR = empty_analysis := by
  refine ⟨?_, ?_, ?_, ?_, ?_⟩
  · unfold structural_analysis
    rw [h]
    simp
  · unfold behavioral_analysis
    rw [h]
    simp
  · unfold economic_analysis economic_activity
    rw [show econ_diversity none = 0 from rfl, if_neg (by norm_num), h]
    simp
  · unfold temporal_analysis
    rw [h]
    simp
  · unfold compute_comprehensive_reputation
    rw [h]
    simp

/-- An all-zero oracle (no graph-wide metrics, no sybil detector). -/
def zeroOracle : Oracle := ⟨fun _ => 0, fun _ => 0, fun _ => 0, fun _ => 0, fun _ => 0, none⟩

/-- Witness for claim C6: the actor "x" absent from the one-node graph. -/
theorem missing_actor_behavior_witness :
    memNode singleGraph "x" = false ∧
    (structural_analysis singleGraph "x" zeroOracle = empty_structural_scores ∧
      behavioral_analysis singleGraph "x" = none ∧
      economic_analysis singleGraph "x" none 0 = none ∧
      temporal_analysis singleGraph "x" = none ∧
      compute_comprehensive_reputation singleGraph "x" zeroOracle 0 = empty_analysis) :=
  ⟨by simp [singleGraph, memNode],
    missing_actor_behavior singleGraph "x" zeroOracle 0 (by simp [singleGraph, memNode])⟩

end DotRep
